import Mathlib

/-!
Verification of the learnmolsim molecular-dynamics package.

The Python package keeps particle data in a `State` (structure of arrays)
attached to an orthorhombic periodic `Box`.  Attribute assignment goes
through validating property setters built on `numpy.array` conversion with
an `ndmin` promotion followed by an exact shape check.  We embed the values
a caller can pass (scalars and nested lists, up to rank 3), the conversion
and promotion performed by `numpy.array`, and each property setter, and we
prove the validation properties claimed for them.  `Box.wrap`,
`Box.minimum_image`, and the Lennard-Jones evaluation are unimplemented
stubs in the sources (`raise NotImplementedError()`), so those operations
are modelled from the specification text and their claimed properties are
proved of the model.  Real numbers are embedded as rationals, which makes
every definition executable and every floor/round exact.
-/

/-- Array element dtypes that appear in the package: `numpy.float64` for
coordinates and `numpy.int32` for image counters. -/
inductive DType where
  | float64
  | int32
deriving DecidableEq, Repr

/-- A value a caller can pass to a setter: a Python scalar or a nested
(rectangular) list of numbers, up to rank 3.  This is what `numpy.array`
receives before conversion. -/
inductive NDVal where
  | scalar (x : ℚ)
  | arr1 (xs : List ℚ)
  | arr2 (xss : List (List ℚ))
  | arr3 (xsss : List (List (List ℚ)))
deriving DecidableEq, Repr

namespace NDVal

/-- Rank of the value before any `ndmin` promotion. -/
def rank : NDVal → ℕ
  | scalar _ => 0
  | arr1 _ => 1
  | arr2 _ => 2
  | arr3 _ => 3

/-- Rectangularity: every row of a nested list has the length of the first,
so that the numpy shape is well defined.  Outer levels must be nonempty for
the nesting depth to be observable. -/
def wfb : NDVal → Bool
  | scalar _ => true
  | arr1 _ => true
  | arr2 xss => !xss.isEmpty && xss.all fun r => r.length = (xss.headD []).length
  | arr3 xsss =>
      !xsss.isEmpty &&
      xsss.all (fun m => !m.isEmpty && m.length = (xsss.headD []).length) &&
      (xsss.flatMap id).all fun r => r.length = ((xsss.headD []).headD []).length

/-- The numpy shape of a (rectangular) value. -/
def shape : NDVal → List ℕ
  | scalar _ => []
  | arr1 xs => [xs.length]
  | arr2 xss => [xss.length, (xss.headD []).length]
  | arr3 xsss => [xsss.length, (xsss.headD []).length, ((xsss.headD []).headD []).length]

/-- `numpy.array(v, ndmin=1)`: prepend axes until the rank is at least 1. -/
def prom1 : NDVal → NDVal
  | scalar x => arr1 [x]
  | v => v

/-- `numpy.array(v, ndmin=2)`: prepend axes until the rank is at least 2. -/
def prom2 : NDVal → NDVal
  | scalar x => arr2 [[x]]
  | arr1 xs => arr2 [xs]
  | v => v

/-- `numpy.isscalar`: true exactly for Python scalars. -/
def isScalar : NDVal → Bool
  | scalar _ => true
  | _ => false

/-- `numpy.zeros_like`: an array of zeros with the same shape. -/
def zerosLike : NDVal → NDVal
  | scalar _ => scalar 0
  | arr1 xs => arr1 (xs.map fun _ => 0)
  | arr2 xss => arr2 (xss.map fun r => r.map fun _ => 0)
  | arr3 xsss => arr3 (xsss.map fun m => m.map fun r => r.map fun _ => 0)

/-- Leading dimension of the shape (`shape[0]`), 0 for a scalar. -/
def lead (v : NDVal) : ℕ := v.shape.headD 0

/-- Entries of a rank-1 value, for the positivity check of `Box.L`. -/
def row : NDVal → List ℚ
  | arr1 xs => xs
  | _ => []

end NDVal

/-- A stored numpy array: the converted data together with its dtype tag. -/
structure NDArr where
  dtype : DType
  data : NDVal
deriving DecidableEq, Repr

/-- The Python exceptions raised by the validating setters. -/
inductive Err where
  | typeError
  | valueError
deriving DecidableEq, Repr

/-- A numeric value passed to `State.counter`: a Python `int` or `float`.
`isinstance(value, int)` distinguishes the two. -/
inductive PyNum where
  | int (n : ℤ)
  | float (q : ℚ)
deriving DecidableEq, Repr

/-- `Box.L` setter (state.py lines 62-74): convert with `ndmin=1`, broadcast
a one-element array to a cube with `numpy.repeat`, reject any shape other
than `(3,)` with `TypeError`, reject nonpositive entries with `ValueError`. -/
def boxSetL (value : NDVal) : Except Err NDVal :=
  let L0 := value.prom1
  let L1 := if L0.shape = [1] then NDVal.arr1 (List.replicate 3 (L0.row.headD 0)) else L0
  if L1.shape ≠ [3] then .error .typeError
  else if L1.row.any (· ≤ 0) then .error .valueError
  else .ok L1

/-- The simulation `State`: particle count fixed at construction, box edge
lengths, scalar mass, integer counter, stored arrays.  Velocities, energies
and forces start unset (`none`). -/
structure St where
  N : ℕ
  boxL : NDVal
  mass : ℚ
  counter : ℤ
  positions : NDArr
  images : NDArr
  velocities : Option NDArr
  energies : Option NDArr
  forces : Option NDArr
deriving DecidableEq, Repr

/-- `State.counter` setter (state.py lines 248-252): require
`isinstance(value, int)`, store the value unchanged; no sign check. -/
def setCounter (st : St) (value : PyNum) : Except Err St :=
  match value with
  | .int n => .ok { st with counter := n }
  | .float _ => .error .typeError

/-- `State.mass` setter (state.py lines 237-241): require a positive value. -/
def setMass (st : St) (value : ℚ) : Except Err St :=
  if value ≤ 0 then .error .valueError else .ok { st with mass := value }

/-- `State.positions` setter (state.py lines 259-264): convert with
`ndmin=2` and dtype `float64`, require shape `(N,3)`, else `TypeError`. -/
def setPositions (st : St) (value : NDVal) : Except Err St :=
  let r := value.prom2
  if r.shape ≠ [st.N, 3] then .error .typeError
  else .ok { st with positions := ⟨.float64, r⟩ }

/-- `State.images` setter (state.py lines 271-276): convert with `ndmin=2`
and dtype `float64` (sic: the source passes `dtype=np.float64` although the
property documents `numpy.int32`), require shape `(N,3)`, else `TypeError`. -/
def setImages (st : St) (value : NDVal) : Except Err St :=
  let im := value.prom2
  if im.shape ≠ [st.N, 3] then .error .typeError
  else .ok { st with images := ⟨.float64, im⟩ }

/-- `State.velocities` setter (state.py lines 283-291): `None` resets to
unset; otherwise convert with `ndmin=2`, require shape `(N,3)`. -/
def setVelocities (st : St) (value : Option NDVal) : Except Err St :=
  match value with
  | none => .ok { st with velocities := none }
  | some v =>
      let w := v.prom2
      if w.shape ≠ [st.N, 3] then .error .typeError
      else .ok { st with velocities := some ⟨.float64, w⟩ }

/-- `State.energies` setter (state.py lines 298-306): `None` resets to
unset; otherwise convert with `ndmin=1`, require shape `(N,)`. -/
def setEnergies (st : St) (value : Option NDVal) : Except Err St :=
  match value with
  | none => .ok { st with energies := none }
  | some v =>
      let e := v.prom1
      if e.shape ≠ [st.N] then .error .typeError
      else .ok { st with energies := some ⟨.float64, e⟩ }

/-- `State.forces` setter (state.py lines 313-321): `None` resets to unset;
otherwise convert with `ndmin=2`, require shape `(N,3)`. -/
def setForces (st : St) (value : Option NDVal) : Except Err St :=
  match value with
  | none => .ok { st with forces := none }
  | some v =>
      let f := v.prom2
      if f.shape ≠ [st.N, 3] then .error .typeError
      else .ok { st with forces := some ⟨.float64, f⟩ }

/-- `State.__init__` (state.py lines 201-214): after the scalar fields,
`self.positions = np.zeros((N,3))` and `self.images = np.zeros((N,3),
dtype=np.int32)` are assigned through the property setters, then `None`
through the velocities, energies and forces setters.  Because the images
setter re-converts its argument with `dtype=np.float64` (state.py line
273), the freshly constructed state already stores float64 images.  For
`N ≥ 1` each of these assignments passes its shape check, so the `getD`
fallbacks are never taken. -/
def initState (N : ℕ) (boxL : NDVal) (mass : ℚ) (counter : ℤ) : St :=
  let st0 : St :=
    { N := N
      boxL := boxL
      mass := mass
      counter := counter
      positions := ⟨.float64, .arr2 []⟩
      images := ⟨.float64, .arr2 []⟩
      velocities := none
      energies := none
      forces := none }
  let st1 := (setPositions st0 (.arr2 (List.replicate N (List.replicate 3 0)))).toOption.getD st0
  let st2 := (setImages st1 (.arr2 (List.replicate N (List.replicate 3 0)))).toOption.getD st1
  let st3 := (setVelocities st2 none).toOption.getD st2
  let st4 := (setEnergies st3 none).toOption.getD st3
  (setForces st4 none).toOption.getD st4

/-- `VelocityVerlet.dt` setter (dynamics.py lines 51-55): a negative
timestep raises `ValueError` at assignment time; any other value is
stored. -/
def setDt (value : ℚ) : Except Err ℚ :=
  if value < 0 then .error .valueError else .ok value

/-- `VelocityVerlet.__init__` (dynamics.py lines 42-44) assigns `dt`
through the validating setter. -/
def vvInit (dt : ℚ) : Except Err ℚ := setDt dt

/-- `LennardJones._zeros` (potential.py lines 158-202): record
`numpy.isscalar`, convert with `ndmin=1` and dtype `float64`, raise
`TypeError` unless the converted rank is 1, and return the promoted array,
a matching zero array, and the scalar flag. -/
def ljZeros (x : NDVal) : Except Err (NDArr × NDArr × Bool) :=
  let s := x.isScalar
  let x1 := x.prom1
  if x1.shape.length ≠ 1 then .error .typeError
  else .ok (⟨.float64, x1⟩, ⟨.float64, x1.zerosLike⟩, s)

/-- 3-vectors of rationals: one particle coordinate. -/
abbrev Vec3 : Type := ℚ × ℚ × ℚ

/-- 3-vectors of integers: one particle's image counters. -/
abbrev IVec3 : Type := ℤ × ℤ × ℤ

/-- Modelled from the spec: geometry box with exact rational edge lengths,
standing in for `Box` whose `wrap`/`minimum_image` methods are
`NotImplementedError` stubs in state.py. -/
structure BoxM where
  L : Vec3
deriving DecidableEq, Repr

/-- Modelled from the spec: one coordinate axis of `Box.wrap` (state.py
lines 87-135 document it but the body raises `NotImplementedError`):
`shift = floor(x / L)`, new coordinate `x - shift*L`, image incremented by
`shift`. -/
def wrapAxis (L x : ℚ) (im : ℤ) : ℚ × ℤ :=
  (x - L * (⌊x / L⌋ : ℤ), im + ⌊x / L⌋)

/-- Modelled from the spec: `Box.wrap` on a single particle with an image
accumulator, applied axis by axis. -/
def BoxM.wrap (b : BoxM) (r : Vec3) (im : IVec3) : Vec3 × IVec3 :=
  let a := wrapAxis b.L.1 r.1 im.1
  let c := wrapAxis b.L.2.1 r.2.1 im.2.1
  let d := wrapAxis b.L.2.2 r.2.2 im.2.2
  ((a.1, c.1, d.1), (a.2, c.2, d.2))

/-- Unwrap formula from the spec: `r_unwrap = r_wrap + L*image`, applied
axis by axis. -/
def unwrap (L r : Vec3) (im : IVec3) : Vec3 :=
  (r.1 + L.1 * (im.1 : ℚ), r.2.1 + L.2.1 * (im.2.1 : ℚ), r.2.2 + L.2.2 * (im.2.2 : ℚ))

/-- Modelled from the spec: one axis of `Box.minimum_image` (a
`NotImplementedError` stub in state.py): `v - round(v/L)*L`. -/
def minImageAxis (L v : ℚ) : ℚ :=
  v - (round (v / L) : ℤ) * L

/-- Modelled from the spec: `Box.minimum_image` on a single separation
vector, applied axis by axis. -/
def BoxM.minimum_image (b : BoxM) (v : Vec3) : Vec3 :=
  (minImageAxis b.L.1 v.1, minImageAxis b.L.2.1 v.2.1, minImageAxis b.L.2.2 v.2.2)

/-- Squared Euclidean norm of a 3-vector. -/
def normSq (v : Vec3) : ℚ :=
  v.1 ^ 2 + v.2.1 ^ 2 + v.2.2 ^ 2

/-- A rational extended with `+infinity`, standing in for the float values
`numpy.inf` produced at zero pair separation. -/
inductive QInf where
  | fin (q : ℚ)
  | inf
deriving DecidableEq, Repr

/-- Finite part of a `QInf` (0 on `inf`); used only where the surrounding
computation guarantees the value is finite. -/
def QInf.lift : QInf → ℚ
  | .fin q => q
  | .inf => 0

/-- Lennard-Jones parameters (potential.py lines 82-86). -/
structure LennardJones where
  epsilon : ℚ
  sigma : ℚ
  rcut : ℚ
  shift : Bool
deriving DecidableEq, Repr

/-- Unshifted pair energy as a function of the squared separation:
`4*eps*((sigma^2/rsq)^6 - (sigma^2/rsq)^3)`, i.e.
`4*eps*((sigma/r)^12 - (sigma/r)^6)`. -/
def ljU (p : LennardJones) (rsq : ℚ) : ℚ :=
  4 * p.epsilon * ((p.sigma ^ 2 / rsq) ^ 6 - (p.sigma ^ 2 / rsq) ^ 3)

/-- Force magnitude divided by r as a function of the squared separation:
`24*eps*(2*(sigma/r)^12 - (sigma/r)^6)/rsq`. -/
def ljF (p : LennardJones) (rsq : ℚ) : ℚ :=
  24 * p.epsilon * (2 * (p.sigma ^ 2 / rsq) ^ 6 - (p.sigma ^ 2 / rsq) ^ 3) / rsq

/-- Modelled from the spec: `LennardJones.energy_force` (potential.py lines
125-156 document it but the body raises `NotImplementedError`).  At zero
squared separation both results are `+infinity`; inside the cutoff the
truncated (optionally shifted) Lennard-Jones values; beyond the cutoff
both are zero. -/
def LennardJones.energy_force (p : LennardJones) (rsq : ℚ) : QInf × QInf :=
  if rsq = 0 then (.inf, .inf)
  else if rsq ≤ p.rcut ^ 2 then
    (.fin (ljU p rsq - if p.shift then ljU p (p.rcut ^ 2) else 0), .fin (ljF p rsq))
  else (.fin 0, .fin 0)

/-- Modelled from the spec: the minimum-image separation vector pointing
from particle `i` to particle `j`, as used by `LennardJones.compute`. -/
def sepVec (b : BoxM) {n : ℕ} (pos : Fin n → Vec3) (i j : Fin n) : Vec3 :=
  b.minimum_image (pos j - pos i)

/-- Modelled from the spec: the force contribution of the ordered pair
`(i,j)` on particle `j`: `f_over_r` times the vector from `i` to `j`. -/
def pairForce (p : LennardJones) (b : BoxM) {n : ℕ} (pos : Fin n → Vec3) (i j : Fin n) : Vec3 :=
  QInf.lift (p.energy_force (normSq (sepVec b pos i j))).2 • sepVec b pos i j

/-- Modelled from the spec: half of the pair energy of the ordered pair
`(i,j)`, the share assigned to each of the two particles. -/
def pairHalfEnergy (p : LennardJones) (b : BoxM) {n : ℕ} (pos : Fin n → Vec3) (i j : Fin n) : ℚ :=
  QInf.lift (p.energy_force (normSq (sepVec b pos i j))).1 / 2

/-- Modelled from the spec: what the pair loop of `LennardJones.compute`
adds to the force on particle `k` on account of particle `j`: for `j < k`
the pair `(j,k)` pushes `+pairForce j k` onto `k`; for `k < j` the pair
`(k,j)` pushes `-pairForce k j` onto `k`; a particle exerts nothing on
itself. -/
def accumF (p : LennardJones) (b : BoxM) {n : ℕ} (pos : Fin n → Vec3) (k j : Fin n) : Vec3 :=
  if j < k then pairForce p b pos j k
  else if k < j then -pairForce p b pos k j
  else 0

/-- Modelled from the spec: the half pair energy particle `k` receives on
account of particle `j`. -/
def accumU (p : LennardJones) (b : BoxM) {n : ℕ} (pos : Fin n → Vec3) (k j : Fin n) : ℚ :=
  if j < k then pairHalfEnergy p b pos j k
  else if k < j then pairHalfEnergy p b pos k j
  else 0

/-- Modelled from the spec: `LennardJones.compute` (potential.py lines
88-123 document it but the body raises `NotImplementedError`): per-particle
energies and forces accumulated over all unordered pairs with the
minimum-image convention. -/
def LennardJones.compute (p : LennardJones) (b : BoxM) {n : ℕ} (pos : Fin n → Vec3) :
    (Fin n → ℚ) × (Fin n → Vec3) :=
  (fun k => ∑ j, accumU p b pos k j, fun k => ∑ j, accumF p b pos k j)

/-- Helper: the unwrap identity on one axis: wrapping and then adding
`L * image` restores the original coordinate. -/
theorem wrapAxis_unwrap (L x : ℚ) (im : ℤ) :
    (wrapAxis L x im).1 + L * (((wrapAxis L x im).2 : ℤ) : ℚ) = x + L * (im : ℚ) := by
  simp only [wrapAxis]
  push_cast
  ring

/-- C1: for every position vector and every image accumulator, `Box.wrap`
returns a wrapped position and updated image whose unwrap `r + L*image`
equals the unwrap of the input; for the box 10x15x20, wrapping (11,-1,18)
with image (0,0,0) gives position (1,14,18) and image (1,-1,0). -/
theorem wrap_unwrap_roundtrip :
    (∀ (bx : BoxM) (r : Vec3) (im : IVec3),
        unwrap bx.L (bx.wrap r im).1 (bx.wrap r im).2 = unwrap bx.L r im) ∧
    (BoxM.mk (10, 15, 20)).wrap (11, -1, 18) (0, 0, 0) = ((1, 14, 18), (1, -1, 0)) := by
  constructor
  · intro bx r im
    have h1 := wrapAxis_unwrap bx.L.1 r.1 im.1
    have h2 := wrapAxis_unwrap bx.L.2.1 r.2.1 im.2.1
    have h3 := wrapAxis_unwrap bx.L.2.2 r.2.2 im.2.2
    simp only [BoxM.wrap, unwrap, Prod.mk.injEq]
    exact ⟨h1, h2, h3⟩
  · norm_num [BoxM.wrap, wrapAxis, Prod.mk.injEq]

/-- C3: at squared separation exactly 0, `LennardJones.energy_force`
returns `+infinity` for both the energy and the force-over-r term (it is a
total function of the model, not an exception), and in particular neither
result is the finite value 0. -/
theorem lj_energy_force_zero_sep (p : LennardJones) :
    p.energy_force 0 = (QInf.inf, QInf.inf) ∧
    (p.energy_force 0).1 ≠ QInf.fin 0 ∧ (p.energy_force 0).2 ≠ QInf.fin 0 := by
  refine ⟨?_, ?_, ?_⟩ <;> simp [LennardJones.energy_force]

/-- Helper: the force accumulation kernel of `LennardJones.compute` is
antisymmetric in its two particle indices, because both particles of a pair
receive exactly opposite copies of the same pair force. -/
theorem accumF_antisymm (p : LennardJones) (b : BoxM) {n : ℕ} (pos : Fin n → Vec3)
    (k j : Fin n) : accumF p b pos k j = -accumF p b pos j k := by
  rcases lt_trichotomy j k with h | h | h
  · simp [accumF, h, lt_asymm h]
  · subst h
    simp [accumF, lt_irrefl]
  · simp [accumF, h, lt_asymm h]

/-- C2: for every configuration with no coincident pair, the per-particle
forces returned by `LennardJones.compute` sum to the zero vector exactly,
and the contribution a pair makes to one of its particles is the exact
negation of the contribution it makes to the other. -/
theorem lj_compute_newton_third_law (p : LennardJones) (b : BoxM) {n : ℕ}
    (pos : Fin n → Vec3)
    (_hsep : ∀ i j : Fin n, i ≠ j → normSq (sepVec b pos i j) ≠ 0) :
    (∑ k, (p.compute b pos).2 k) = 0 ∧
    ∀ k j : Fin n, accumF p b pos k j = -accumF p b pos j k := by
  refine ⟨?_, fun k j => accumF_antisymm p b pos k j⟩
  simp only [LennardJones.compute]
  have h1 : (∑ k : Fin n, ∑ j : Fin n, accumF p b pos k j)
      = ∑ k : Fin n, ∑ j : Fin n, -accumF p b pos j k :=
    Finset.sum_congr rfl fun k _ => Finset.sum_congr rfl fun j _ => accumF_antisymm p b pos k j
  have h3 : (∑ k : Fin n, ∑ j : Fin n, accumF p b pos j k)
      = ∑ k : Fin n, ∑ j : Fin n, accumF p b pos k j := Finset.sum_comm
  have h2 : (∑ k : Fin n, ∑ j : Fin n, -accumF p b pos j k)
      = -(∑ k : Fin n, ∑ j : Fin n, accumF p b pos j k) := by
    simp only [Finset.sum_neg_distrib]
  have hS : (∑ k : Fin n, ∑ j : Fin n, accumF p b pos k j)
      = -(∑ k : Fin n, ∑ j : Fin n, accumF p b pos k j) :=
    h1.trans (h2.trans (by rw [h3]))
  set S := ∑ k : Fin n, ∑ j : Fin n, accumF p b pos k j with hSdef
  have g1 : S.1 = 0 := by
    have := congrArg Prod.fst hS
    simp only [Prod.fst_neg] at this
    linarith
  have g2 : S.2.1 = 0 := by
    have := congrArg (fun t : Vec3 => t.2.1) hS
    simp only [Prod.snd_neg, Prod.fst_neg] at this
    linarith
  have g3 : S.2.2 = 0 := by
    have := congrArg (fun t : Vec3 => t.2.2) hS
    simp only [Prod.snd_neg] at this
    linarith
  have hrepr : S = (S.1, S.2.1, S.2.2) := rfl
  rw [hrepr, g1, g2, g3]
  rfl

/-- Witness for C2: two particles one unit apart in a cube of side 10
satisfy the separation hypothesis, and the computed forces cancel. -/
theorem lj_compute_newton_third_law_witness :
    (∀ i j : Fin 2, i ≠ j →
        normSq (sepVec (BoxM.mk (10, 10, 10))
          ![((0 : ℚ), (0 : ℚ), (0 : ℚ)), ((1 : ℚ), (0 : ℚ), (0 : ℚ))] i j) ≠ 0) ∧
    (∑ k, ((LennardJones.mk 1 1 3 false).compute (BoxM.mk (10, 10, 10))
        ![((0 : ℚ), (0 : ℚ), (0 : ℚ)), ((1 : ℚ), (0 : ℚ), (0 : ℚ))]).2 k) = 0 := by
  have h : ∀ i j : Fin 2, i ≠ j →
      normSq (sepVec (BoxM.mk (10, 10, 10))
        ![((0 : ℚ), (0 : ℚ), (0 : ℚ)), ((1 : ℚ), (0 : ℚ), (0 : ℚ))] i j) ≠ 0 := by
    intro i j hij
    fin_cases i <;> fin_cases j <;>
      simp_all [sepVec, BoxM.minimum_image, minImageAxis, normSq, round_eq,
        Prod.mk_sub_mk] <;> norm_num
  exact ⟨h, (lj_compute_newton_third_law _ _ _ h).1⟩

/-- C4 (failing direction): the stored images array is of dtype `float64`,
not the documented integer `int32`, both right after construction (the
constructor assigns `np.zeros((N,3), dtype=np.int32)` through the setter,
which re-converts with `dtype=np.float64`, state.py line 273) and after
any successful assignment through the `images` setter — contradicting the
claim and the property's own docstring. -/
theorem images_setter_stores_float64 :
    (initState 1 (.arr1 [10, 10, 10]) 1 0).images.dtype = DType.float64 ∧
    setImages (initState 1 (.arr1 [10, 10, 10]) 1 0) (.arr2 [[1, 2, 3]])
      = .ok { initState 1 (.arr1 [10, 10, 10]) 1 0 with
              images := ⟨DType.float64, .arr2 [[1, 2, 3]]⟩ } ∧
    DType.float64 ≠ DType.int32 := by
  refine ⟨rfl, rfl, by decide⟩

/-- C5 (counterexample): it is not the case that every value accepted by
the counter setter is nonnegative: the setter accepts the integer −5. -/
theorem counter_negative_accepted :
    ¬ ∀ (st : St) (value : PyNum) (st' : St),
        setCounter st value = .ok st' → 0 ≤ st'.counter := by
  intro h
  have := h (initState 1 (.arr1 [10, 10, 10]) 1 0) (.int (-5))
    { initState 1 (.arr1 [10, 10, 10]) 1 0 with counter := -5 } rfl
  norm_num at this

/-- C5 (amended): the counter setter requires exactly a Python integer —
any integer, negative ones included, is stored unchanged, and a float is
rejected with `TypeError`; no sign check is performed. -/
theorem counter_setter_int_only (st : St) (n : ℤ) (q : ℚ) :
    setCounter st (.int n) = .ok { st with counter := n } ∧
    setCounter st (.float q) = .error .typeError :=
  ⟨rfl, rfl⟩

/-- C6: the Velocity Verlet timestep setter (and the constructor, which
assigns through it) raises `ValueError` for a negative timestep at
assignment time, and accepts every non-negative timestep. -/
theorem dt_setter_validation (v : ℚ) :
    (v < 0 → setDt v = .error .valueError ∧ vvInit v = .error .valueError) ∧
    (0 ≤ v → setDt v = .ok v ∧ vvInit v = .ok v) := by
  constructor
  · intro h
    constructor <;> simp [setDt, vvInit, h]
  · intro h
    constructor <;> simp [setDt, vvInit, not_lt.mpr h]

/-- Witness for C6 at the timesteps −1 (rejected) and 1/2 (accepted). -/
theorem dt_setter_validation_witness :
    ((-1 : ℚ) < 0 ∧ setDt (-1) = .error .valueError) ∧
    ((0 : ℚ) ≤ 1 / 2 ∧ setDt (1 / 2) = .ok (1 / 2)) := by
  refine ⟨⟨by norm_num, ((dt_setter_validation (-1)).1 (by norm_num)).1⟩,
    ⟨by norm_num, ((dt_setter_validation (1 / 2)).2 (by norm_num)).1⟩⟩

/-- C7: assigning a value whose converted rank or leading dimension is
wrong to positions, images, velocities, energies or forces raises
`TypeError`; in the `Except` embedding an error result carries no updated
state, which is exactly the validate-before-mutate behaviour of the
setters (the shape test precedes the assignment to the backing field). -/
theorem state_setters_reject_bad_shape (st : St) (v : NDVal) (_hwf : v.wfb = true) :
    ((v.prom2.shape.length ≠ 2 ∨ v.prom2.lead ≠ st.N) →
      setPositions st v = .error .typeError ∧
      setImages st v = .error .typeError ∧
      setVelocities st (some v) = .error .typeError ∧
      setForces st (some v) = .error .typeError) ∧
    ((v.prom1.shape.length ≠ 1 ∨ v.prom1.lead ≠ st.N) →
      setEnergies st (some v) = .error .typeError) := by
  constructor
  · intro h
    have hne : v.prom2.shape ≠ [st.N, 3] := by
      intro he
      rcases h with h | h
      · rw [he] at h
        simp at h
      · rw [NDVal.lead, he] at h
        simp at h
    refine ⟨?_, ?_, ?_, ?_⟩ <;> simp [setPositions, setImages, setVelocities, setForces, hne]
  · intro h
    have hne : v.prom1.shape ≠ [st.N] := by
      intro he
      rcases h with h | h
      · rw [he] at h
        simp at h
      · rw [NDVal.lead, he] at h
        simp at h
    simp [setEnergies, hne]

/-- Witness for C7: a flat 3-element list assigned to a 2-particle state
is rejected by the positions and energies setters. -/
theorem state_setters_reject_bad_shape_witness :
    (NDVal.arr1 [1, 2, 3]).wfb = true ∧
    setPositions (initState 2 (.arr1 [10, 10, 10]) 1 0) (.arr1 [1, 2, 3])
      = .error .typeError ∧
    setEnergies (initState 2 (.arr1 [10, 10, 10]) 1 0) (some (.arr1 [1, 2, 3]))
      = .error .typeError := by
  have h := state_setters_reject_bad_shape (initState 2 (.arr1 [10, 10, 10]) 1 0)
    (.arr1 [1, 2, 3]) (by decide)
  exact ⟨by decide, (h.1 (by decide)).1, h.2 (by decide)⟩

/-- C8: for a 1-particle state, a flat 3-element list is promoted by
`ndmin=2` to a `(1,3)` array and accepted by the positions, velocities and
forces setters, and a bare scalar is promoted by `ndmin=1` to a `(1,)`
array and accepted by the energies setter; for any other particle count
the same inputs raise `TypeError`. -/
theorem n1_promotion_setters (st : St) (a b c e : ℚ) :
    (st.N = 1 →
      setPositions st (.arr1 [a, b, c])
        = .ok { st with positions := ⟨.float64, .arr2 [[a, b, c]]⟩ } ∧
      setVelocities st (some (.arr1 [a, b, c]))
        = .ok { st with velocities := some ⟨.float64, .arr2 [[a, b, c]]⟩ } ∧
      setForces st (some (.arr1 [a, b, c]))
        = .ok { st with forces := some ⟨.float64, .arr2 [[a, b, c]]⟩ } ∧
      setEnergies st (some (.scalar e))
        = .ok { st with energies := some ⟨.float64, .arr1 [e]⟩ }) ∧
    (st.N ≠ 1 →
      setPositions st (.arr1 [a, b, c]) = .error .typeError ∧
      setVelocities st (some (.arr1 [a, b, c])) = .error .typeError ∧
      setForces st (some (.arr1 [a, b, c])) = .error .typeError ∧
      setEnergies st (some (.scalar e)) = .error .typeError) := by
  constructor
  · intro h
    refine ⟨?_, ?_, ?_, ?_⟩ <;>
      simp [setPositions, setVelocities, setForces, setEnergies,
        NDVal.prom2, NDVal.prom1, NDVal.shape, h]
  · intro h
    refine ⟨?_, ?_, ?_, ?_⟩ <;>
      simp [setPositions, setVelocities, setForces, setEnergies,
        NDVal.prom2, NDVal.prom1, NDVal.shape, h, Ne.symm h]

/-- Witness for C8: concrete success for the 1-particle state and concrete
rejection for a 2-particle state. -/
theorem n1_promotion_setters_witness :
    (initState 1 (.arr1 [10, 10, 10]) 1 0).N = 1 ∧
    setPositions (initState 1 (.arr1 [10, 10, 10]) 1 0) (.arr1 [1, 2, 3])
      = .ok { initState 1 (.arr1 [10, 10, 10]) 1 0 with
              positions := ⟨.float64, .arr2 [[1, 2, 3]]⟩ } ∧
    setEnergies (initState 1 (.arr1 [10, 10, 10]) 1 0) (some (.scalar 7))
      = .ok { initState 1 (.arr1 [10, 10, 10]) 1 0 with
              energies := some ⟨.float64, .arr1 [7]⟩ } ∧
    (initState 2 (.arr1 [10, 10, 10]) 1 0).N ≠ 1 ∧
    setPositions (initState 2 (.arr1 [10, 10, 10]) 1 0) (.arr1 [1, 2, 3])
      = .error .typeError := by
  have h1 := (n1_promotion_setters (initState 1 (.arr1 [10, 10, 10]) 1 0) 1 2 3 7).1 rfl
  have h2 := (n1_promotion_setters (initState 2 (.arr1 [10, 10, 10]) 1 0) 1 2 3 7).2 (by decide)
  exact ⟨rfl, h1.1, h1.2.2.2, by decide, h2.1⟩

/-- C9: the `Box.L` setter broadcasts a positive scalar or one-element
list to a cube; after conversion only the shapes `(1,)` and `(3,)` pass
the shape test, anything else raises `TypeError`; a nonpositive entry in
an otherwise well-shaped value raises `ValueError`. -/
theorem boxL_setter_validation :
    (∀ x : ℚ, 0 < x →
      boxSetL (.scalar x) = .ok (.arr1 [x, x, x]) ∧
      boxSetL (.arr1 [x]) = .ok (.arr1 [x, x, x])) ∧
    (∀ a b c : ℚ, 0 < a → 0 < b → 0 < c →
      boxSetL (.arr1 [a, b, c]) = .ok (.arr1 [a, b, c])) ∧
    (∀ v : NDVal, v.wfb = true → v.prom1.shape ≠ [1] → v.prom1.shape ≠ [3] →
      boxSetL v = .error .typeError) ∧
    (∀ x : ℚ, x ≤ 0 →
      boxSetL (.scalar x) = .error .valueError ∧
      boxSetL (.arr1 [x]) = .error .valueError) ∧
    (∀ a b c : ℚ, (a ≤ 0 ∨ b ≤ 0 ∨ c ≤ 0) →
      boxSetL (.arr1 [a, b, c]) = .error .valueError) := by
  refine ⟨?_, ?_, ?_, ?_, ?_⟩
  · intro x hx
    constructor <;>
      simp [boxSetL, NDVal.prom1, NDVal.shape, NDVal.row, List.replicate, hx.not_le]
  · intro a b c ha hb hc
    simp [boxSetL, NDVal.prom1, NDVal.shape, NDVal.row,
      ha.not_le, hb.not_le, hc.not_le]
  · intro v _hwf h1 h3
    rcases v with x | xs | xss | xsss
    · exact absurd (by simp [NDVal.prom1, NDVal.shape]) h1
    · have hx1 : xs.length ≠ 1 := by simpa [NDVal.prom1, NDVal.shape] using h1
      have hx3 : xs.length ≠ 3 := by simpa [NDVal.prom1, NDVal.shape] using h3
      simp [boxSetL, NDVal.prom1, NDVal.shape, hx1, hx3]
    · simp [boxSetL, NDVal.prom1, NDVal.shape]
    · simp [boxSetL, NDVal.prom1, NDVal.shape]
  · intro x hx
    constructor <;>
      simp [boxSetL, NDVal.prom1, NDVal.shape, NDVal.row, List.replicate, hx]
  · intro a b c h
    rcases h with h | h | h <;>
      simp [boxSetL, NDVal.prom1, NDVal.shape, NDVal.row, h]

/-- Witness for C9: the scalar 10 broadcasts to a cube, a 2x2 list is
rejected with `TypeError`, and a negative edge is rejected with
`ValueError`. -/
theorem boxL_setter_validation_witness :
    ((0 : ℚ) < 10 ∧ boxSetL (.scalar 10) = .ok (.arr1 [10, 10, 10])) ∧
    boxSetL (.arr2 [[1, 2], [3, 4]]) = .error .typeError ∧
    boxSetL (.arr1 [1, -2, 3]) = .error .valueError := by
  refine ⟨⟨by norm_num, (boxL_setter_validation.1 10 (by norm_num)).1⟩, ?_, ?_⟩
  · exact boxL_setter_validation.2.2.1 (.arr2 [[1, 2], [3, 4]]) (by decide)
      (by decide) (by decide)
  · exact boxL_setter_validation.2.2.2.2 1 (-2) 3 (Or.inr (Or.inl (by norm_num)))

/-- C10: `LennardJones._zeros` fails exactly when the converted input has
rank other than 1 — that is, when the raw input has rank at least 2 — and
otherwise returns the input promoted to a 1-d `float64` array, a zero
array of the same shape, and a flag that is true exactly for scalar
input. -/
theorem lj_zeros_spec (v : NDVal) (_hwf : v.wfb = true) :
    ((∃ err, ljZeros v = .error err) ↔ v.prom1.shape.length ≠ 1) ∧
    (v.prom1.shape.length ≠ 1 ↔ 2 ≤ v.rank) ∧
    (v.prom1.shape.length = 1 →
      ljZeros v = .ok (⟨.float64, v.prom1⟩, ⟨.float64, v.prom1.zerosLike⟩, v.isScalar)) ∧
    (v.prom1.shape.length = 1 → v.prom1.zerosLike.shape = v.prom1.shape) ∧
    (v.isScalar = true ↔ v.rank = 0) := by
  rcases v with x | xs | xss | xsss <;>
    simp [ljZeros, NDVal.prom1, NDVal.shape, NDVal.rank, NDVal.isScalar, NDVal.zerosLike]

/-- Witness for C10: a scalar input succeeds with the promoted array, its
zero array and a true flag; a rank-2 input is rejected. -/
theorem lj_zeros_spec_witness :
    ljZeros (.scalar 5) = .ok (⟨.float64, .arr1 [5]⟩, ⟨.float64, .arr1 [0]⟩, true) ∧
    (∃ err, ljZeros (.arr2 [[1, 2]]) = .error err) := by
  have h1 := lj_zeros_spec (.scalar 5) (by decide)
  have h2 := lj_zeros_spec (.arr2 [[1, 2]]) (by decide)
  refine ⟨?_, h2.1.mpr (by decide)⟩
  simpa [NDVal.prom1, NDVal.zerosLike, NDVal.isScalar] using h1.2.2.1 (by decide)
